import Mathlib

/-!
Verification of the core of `lib/api_common.js` (WeChat API client base):
credential lifecycle (`AccessToken`, `getAccessToken`, `ensureAccessToken`),
the retrying request pipeline (`API.request`), the option-merge step with its
shared-`headers` aliasing, and the `API.mixin` extension registry.

Modelling conventions:
- JavaScript objects used as string-keyed maps become association lists
  (`List (String × α)`); `obj[k] = v` updates in place when the key exists and
  appends otherwise, matching JS property-order semantics.
- JSON values (the output of `JSONbig.parse`) become the inductive `JVal`;
  JS truthiness of such values is `truthy`.
- Machine time (`Date.now()`) is an explicit `Int` parameter.
- Thrown JS `Error` objects become `Except.error` of the record `WErr`
  (fields `name`, `message`, `code`), mirroring `err.name`/`err.code`.
-/

/-- Association-list lookup: first binding of key `k`, mirroring JS property
read `o[k]` (`none` plays the role of `undefined`). -/
def alookup {α : Type} (l : List (String × α)) (k : String) : Option α :=
  match l with
  | [] => none
  | (k1, v) :: rest => if k1 == k then some v else alookup rest k

/-- JS `Object.prototype.hasOwnProperty` / `k in o` on a plain object. -/
def ahas {α : Type} (l : List (String × α)) (k : String) : Bool :=
  (alookup l k).isSome

/-- JS assignment `o[k] = v`: overwrite in place when the key is present
(keeping property order), append otherwise. -/
def aset {α : Type} (l : List (String × α)) (k : String) (v : α) :
    List (String × α) :=
  if ahas l k then l.map (fun kv => if kv.1 == k then (k, v) else kv)
  else l ++ [(k, v)]

/-- JS `Object.assign(target, src)`: copy every key of `src` onto `target`
in order, source values winning. -/
def objAssign {α : Type} (target src : List (String × α)) :
    List (String × α) :=
  src.foldl (fun t kv => aset t kv.1 kv.2) target

/-- Helper for `strIncludes`: does `p` occur as a contiguous run in the
character list? -/
def strIncludesAux (p : List Char) : List Char → Bool
  | [] => p.isEmpty
  | c :: rest => List.isPrefixOf p (c :: rest) || strIncludesAux p rest

/-- JS `String.prototype.includes`: substring test, used by `request` on the
`content-type` header. -/
def strIncludes (s pat : String) : Bool :=
  strIncludesAux pat.toList s.toList

/-- JSON values as produced by `JSONbig.parse`.  Integer-valued numbers are
all the claims exercise, so numbers are carried as `Int` (json-bigint keeps
big integers exact, which is why `Int` rather than a float model is the
faithful choice). -/
inductive JVal where
  | jnull
  | jbool (b : Bool)
  | jnum (n : Int)
  | jstr (s : String)
  | jarr (elems : List JVal)
  | jobj (fields : List (String × JVal))

/-- JS truthiness of a JSON value (`data && ...` tests in `request`). -/
def truthy : JVal → Bool
  | .jnull => false
  | .jbool b => b
  | .jnum n => !(n == 0)
  | .jstr s => !(s == "")
  | .jarr _ => true
  | .jobj _ => true

/-- Property read `data.k` on a decoded JSON value: `undefined` (`none`)
unless `data` is an object carrying the key. -/
def jgetField : JVal → String → Option JVal
  | .jobj fields, k => alookup fields k
  | _, _ => none

/-- Truthiness of a possibly-`undefined` value (`data.errcode` tests). -/
def optTruthy : Option JVal → Bool
  | some v => truthy v
  | none => false

/-- `String(v)` as applied by `new Error(v)` to build `err.message`:
`undefined` yields the empty message.  Stringification of composite values
is coarse (no claim exercises it). -/
def jsToString : Option JVal → String
  | none => ""
  | some .jnull => "null"
  | some (.jbool true) => "true"
  | some (.jbool false) => "false"
  | some (.jnum n) => toString n
  | some (.jstr s) => s
  | some (.jarr _) => "[array]"
  | some (.jobj _) => "[object Object]"

/-- `AccessToken` (api_common.js lines 12–28): token string plus absolute
expiry instant in milliseconds. -/
structure AccessToken where
  accessToken : String
  expireTime : Int
deriving DecidableEq, Repr

/-- `AccessToken.isValid` (line 26): `!!this.accessToken && Date.now() <
this.expireTime`, with `Date.now()` passed explicitly as `now`. -/
def AccessToken.isValid (t : AccessToken) (now : Int) : Bool :=
  !(t.accessToken == "") && decide (now < t.expireTime)

/-- A thrown JS `Error`: `name`, `message`, and the optional `code` property
set on WeChat API errors (`err.code = data.errcode` keeps the raw JSON
value, hence `Option JVal`). -/
structure WErr where
  name : String
  message : String
  code : Option JVal

/-- The error thrown unconditionally on the first line of
`getAccessToken` (line 189). -/
def superCantSetError : WErr :=
  { name := "Error", message := "super can\x27t set access token", code := none }

/-- The error thrown by `ensureAccessToken` in self-managed mode
(line 233). -/
def cantSetError : WErr :=
  { name := "Error", message := "can\x27t set access token", code := none }

/-- The `WeChatAPIError` with `code = 40001` thrown by `ensureAccessToken`
when `tokenFromCustom` is set (lines 228–231). -/
def accessTokenError : WErr :=
  { name := "WeChatAPIError", message := "accessToken Error",
    code := some (JVal.jnum 40001) }

/-- Client state threaded through the pipeline: the default in-memory token
store (`this.store`, written by the default `saveToken`) plus an
instrumentation counter of transport calls issued (`httpx.request`
invocations), used to express retry counts. -/
structure ApiState where
  store : Option AccessToken
  nCalls : Nat
deriving DecidableEq, Repr

/-- `API.getAccessToken` (lines 188–199).  Its first statement throws the
Error reading "super can\x27t set access token", so every call fails
immediately; the credential-building code below the throw (skew-adjusted
expiry, `saveToken`, return) is unreachable and the state is untouched. -/
def getAccessToken (st : ApiState) : Except WErr AccessToken × ApiState :=
  (Except.error superCantSetError, st)

/-- `API.ensureAccessToken` (lines 221–234).  `store` is the value produced
by `this.getToken()`; `custom` is `this.tokenFromCustom`; `now` is
`Date.now()` inside `isValid`. -/
def ensureAccessToken (store : Option AccessToken) (custom : Bool)
    (now : Int) : Except WErr AccessToken :=
  match store with
  | some token =>
      if token.isValid now then Except.ok token
      else if custom then Except.error accessTokenError
      else Except.error cantSetError
  | none =>
      if custom then Except.error accessTokenError
      else Except.error cantSetError

/-- The validity test `token && new AccessToken(token.accessToken,
token.expireTime).isValid()` from line 225, as a standalone predicate. -/
def storedTokenValid (store : Option AccessToken) (now : Int) : Bool :=
  match store with
  | some token => token.isValid now
  | none => false

/-- A URL in the parsed form produced by `liburl.parse(url, true)`: path part
plus the decoded query object.  `request` receives URLs already in this
structured form; `liburl.format` (which `request` applies after deleting the
cached `search` string, so the query object is what gets serialized) is
`formatUrl` below.  Percent-encoding is not modelled. -/
structure Url where
  pathname : String
  query : List (String × String)
deriving DecidableEq, Repr

/-- `liburl.format(urlobj)` after `delete urlobj.search`: serialize the
query object. -/
def formatUrl (u : Url) : String :=
  match u.query with
  | [] => u.pathname
  | _ => u.pathname ++ "?" ++
      String.intercalate "&" (u.query.map (fun kv => kv.1 ++ "=" ++ kv.2))

/-- Lines 156–161 of `request`: `urlobj.query.access_token = token.accessToken`
guarded by `if (urlobj.query && urlobj.query.access_token)`.  The query
object itself is always truthy after `liburl.parse(url, true)`; the guard
therefore bites on the truthiness of the `access_token` entry (present and
non-empty). -/
def rewriteAccessToken (u : Url) (tok : String) : Url :=
  match alookup u.query "access_token" with
  | some v =>
      if v == "" then u
      else { u with query := aset u.query "access_token" tok }
  | none => u

/-- One HTTP response as observed by `request`: `res.statusCode`, the
`content-type` header (empty string when absent, line 131), and the body
buffer read by `httpx.read`, as a string. -/
structure HttpResp where
  statusCode : Int
  contentType : String
  body : String

/-- The environment of external collaborators of `request`:
- `transport n` is the response `httpx.request` yields to the n-th
  transport call of the client (indexed by `ApiState.nCalls`; the merged
  options do not influence the modelled response),
- `jsonParse` is `JSONbig.parse` (`none` when it throws),
- `sanitize` is `replaceJSONCtlChars` from `lib/util.js` (outside the
  verified file; `request` only ever composes it in front of the parser). -/
structure Env where
  transport : Nat → HttpResp
  jsonParse : String → Option JVal
  sanitize : String → String

/-- The three shapes a successful `request` can resolve with: decoded JSON
`data`, the raw text of an unparseable `text/plain` body, or the untouched
buffer of any other content type. -/
inductive ReqResult where
  | jsonData (v : JVal)
  | rawText (s : String)
  | rawBuffer (b : String)

/-- `(err.code === 40001 || err.code === 42001)` from line 152: a strict
equality against the number, so only numeric JSON values qualify. -/
def isCredRejectCode : Option JVal → Bool
  | some (.jnum n) => n == 40001 || n == 42001
  | _ => false

/-- `API.request` (lines 102–173), with the option-merge step modelled
separately (`mergeOptions` below) since the transport environment indexes
responses by call count rather than by options.  The source condition
`(err.code === 40001 || err.code === 42001) && retry > 0 &&
!this.tokenFromCustom` is rendered as the match on
`retry, isCredRejectCode err.code && !custom`: the `Nat.succ` pattern is
exactly `retry > 0`, and the recursive call receives `retry - 1`.  The retry
branch first runs `await this.saveToken(null)` (clearing the store), then
`await this.getAccessToken()`, whose result is propagated: an error aborts
the whole call, a token leads to the URL rewrite and the recursion. -/
def request (env : Env) (url : Url) (retry : Nat) (custom : Bool)
    (st : ApiState) : Except WErr ReqResult × ApiState :=
  let res := env.transport st.nCalls
  let st1 : ApiState := { st with nCalls := st.nCalls + 1 }
  if res.statusCode < 200 || res.statusCode > 204 then
    (Except.error { name := "WeChatAPIError",
                    message := "url: " ++ formatUrl url ++ ", status code: " ++
                      toString res.statusCode,
                    code := none }, st1)
  else
    let origin := res.body
    if strIncludes res.contentType "application/json" ||
        strIncludes res.contentType "text/plain" then
      match env.jsonParse (env.sanitize origin) with
      | none =>
          if strIncludes res.contentType "text/plain" then
            (Except.ok (ReqResult.rawText origin), st1)
          else
            (Except.error { name := "WeChatAPIError",
                            message := "JSON.parse error. buffer is " ++ origin,
                            code := none }, st1)
      | some data =>
          if truthy data && optTruthy (jgetField data "errcode") then
            let err : WErr :=
              { name := "WeChatAPIError",
                message := jsToString (jgetField data "errmsg"),
                code := jgetField data "errcode" }
            match retry, isCredRejectCode err.code && !custom with
            | Nat.succ r, true =>
                let st2 : ApiState := { st1 with store := none }
                match getAccessToken st2 with
                | (Except.error e, st3) => (Except.error e, st3)
                | (Except.ok token, st3) =>
                    request env (rewriteAccessToken url token.accessToken) r
                      custom st3
            | _, _ => (Except.error err, st1)
          else (Except.ok (ReqResult.jsonData data), st1)
    else (Except.ok (ReqResult.rawBuffer origin), st1)

/-- A method table: JS object / prototype as an ordered association list,
implementations abstracted to identifiers. -/
abbrev MethodTable := List (String × Nat)

/-- `API.mixin` (lines 307–314): iterate the keys of `obj` in insertion
order; throw on one that `API.prototype` already owns, otherwise assign it
onto the prototype.  The result pairs the name of the collision that aborted
the loop (if any) with the final contents of the prototype — the assignments
made before the throw persist, as JS prototype mutation does. -/
def mixin (t : MethodTable) (obj : MethodTable) : Option String × MethodTable :=
  match obj with
  | [] => (none, t)
  | (key, v) :: rest =>
      if ahas t key then (some key, t)
      else mixin (aset t key v) rest

/-- Contents of one headers object: header name → header value. -/
abbrev HMap := List (String × String)

/-- A tiny heap of headers objects, so that JS reference sharing between
`this.defaults.headers` and the per-call `options.headers` is explicit: a
reference is an index into this list. -/
abbrev Heap := List HMap

/-- Dereference a headers object (out-of-range reads default to the empty
object; theorems hypothesize well-formed references). -/
def hget : Heap → Nat → HMap
  | [], _ => []
  | m :: _, 0 => m
  | _ :: rest, Nat.succ r => hget rest r

/-- Overwrite the headers object behind a reference (JS in-place mutation of
the shared object). -/
def hset : Heap → Nat → HMap → Heap
  | [], _, _ => []
  | _ :: rest, 0, m => m :: rest
  | x :: rest, Nat.succ r, m => x :: hset rest r m

/-- `Object.assign(targetHeaders, srcHeaders)` on headers contents. -/
def hmapAssign (target src : HMap) : HMap :=
  src.foldl (fun t kv => aset t kv.1 kv.2) target

/-- A value stored under a key of an options object: a primitive, or a
reference to a headers object.  `Object.assign(options, this.defaults)`
copies these values shallowly, so a `href` in the defaults makes the merged
options alias the very same headers object. -/
inductive OptVal where
  | prim (s : String)
  | href (r : Nat)
deriving DecidableEq, Repr

/-- An options object (`this.defaults`, or the merged `options`). -/
abbrev OptObj := List (String × OptVal)

/-- The per-call `opts` argument as `request` reads it: the non-`headers`
keys (shallow-copied values), and the contents of `opts.headers` when that
property is present and truthy (`opts.headers` is only ever read, so its
contents stand for it).  The source loop visits keys in insertion order;
since the keys of a JS object are distinct, processing the non-`headers`
keys first and `headers` last (as done here) assigns the same values. -/
structure Opts where
  plain : OptObj
  headers : Option HMap

/-- Lines 107–121 of `request`: `options = {}` ; `Object.assign(options,
this.defaults)` ; then per key of `opts`: plain keys are assigned onto
`options`, while for `headers` the code runs `options.headers =
options.headers || {}` followed by `Object.assign(options.headers,
opts.headers)` — mutating, through the copied reference, the headers object
shared with `this.defaults`.  Returns the heap after those mutations and
the merged options object.  (`this.defaults` itself is an immutable input
here: the aliasing shows up as the mutation of the heap cell its `headers`
reference designates.) -/
def mergeOptions (heap : Heap) (defaults : OptObj) (opts : Opts) :
    Heap × OptObj :=
  let options := objAssign ([] : OptObj) defaults
  let options := objAssign options opts.plain
  match opts.headers with
  | none => (heap, options)
  | some callerHeaders =>
      match alookup options "headers" with
      | some (OptVal.href r) =>
          (hset heap r (hmapAssign (hget heap r) callerHeaders), options)
      | _ =>
          (heap ++ [hmapAssign [] callerHeaders],
           aset options "headers" (OptVal.href heap.length))

/-! ### Association-list lemmas -/

theorem alookup_append_of_some {α : Type} {t : List (String × α)}
    (u : List (String × α)) {k : String} {v : α}
    (h : alookup t k = some v) : alookup (t ++ u) k = some v := by
  induction t with
  | nil => simp [alookup] at h
  | cons hd tl ih =>
      rw [List.cons_append]
      rw [alookup] at h ⊢
      by_cases hk : (hd.1 == k) = true
      · simpa [hk] using h
      · simp only [hk] at h ⊢
        simp only [if_neg, Bool.false_eq_true, if_false] at h ⊢
        exact ih h

theorem alookup_append_of_none {α : Type} {t : List (String × α)}
    (u : List (String × α)) {k : String}
    (h : alookup t k = none) : alookup (t ++ u) k = alookup u k := by
  induction t with
  | nil => simp
  | cons hd tl ih =>
      rw [List.cons_append]
      rw [alookup] at h ⊢
      by_cases hk : (hd.1 == k) = true
      · simp [hk] at h
      · simp only [hk, Bool.false_eq_true, if_false] at h ⊢
        exact ih h

theorem ahas_append {α : Type} (t u : List (String × α)) (k : String) :
    ahas (t ++ u) k = (ahas t k || ahas u k) := by
  unfold ahas
  cases h : alookup t k with
  | some v => rw [alookup_append_of_some u h]; simp
  | none => rw [alookup_append_of_none u h]; simp

theorem aset_of_not_has {α : Type} {t : List (String × α)} {k : String}
    (v : α) (h : ahas t k = false) : aset t k v = t ++ [(k, v)] := by
  unfold aset
  simp [h]

theorem ahas_singleton_ne {α : Type} (k1 : String) (v : α) {k : String}
    (h : k1 ≠ k) : ahas [(k1, v)] k = false := by
  simp [ahas, alookup, h]

theorem alookup_map_update_ne {α : Type} (t : List (String × α))
    (k1 : String) (v : α) {k : String} (h : k1 ≠ k) :
    alookup (t.map (fun kv => if kv.1 == k1 then (k1, v) else kv)) k =
      alookup t k := by
  induction t with
  | nil => rfl
  | cons hd tl ih =>
      rw [List.map_cons]
      by_cases he : (hd.1 == k1) = true
      · have h1 : hd.1 = k1 := by simpa using he
        have h2 : ¬((k1 == k) = true) := by simpa using h
        have h3 : ¬((hd.1 == k) = true) := by rw [h1]; exact h2
        rw [if_pos he, alookup, if_neg h2, alookup, if_neg h3]
        exact ih
      · rw [if_neg he, alookup, alookup]
        by_cases hk : (hd.1 == k) = true
        · rw [if_pos hk, if_pos hk]
        · rw [if_neg hk, if_neg hk]
          exact ih

theorem alookup_map_update_self {α : Type} (t : List (String × α))
    (k : String) (v : α) (h : ahas t k = true) :
    alookup (t.map (fun kv => if kv.1 == k then (k, v) else kv)) k =
      some v := by
  induction t with
  | nil => simp [ahas, alookup] at h
  | cons hd tl ih =>
      rw [List.map_cons, alookup]
      by_cases he : (hd.1 == k) = true
      · simp [he]
      · have he2 : (hd.1 == k) = false := by simpa using he
        simp only [he2, Bool.false_eq_true, if_false]
        apply ih
        unfold ahas at h ⊢
        rw [alookup] at h
        simpa only [he2, Bool.false_eq_true, if_false] using h

theorem alookup_aset_ne {α : Type} (t : List (String × α)) {k1 : String}
    (v : α) {k : String} (h : k1 ≠ k) :
    alookup (aset t k1 v) k = alookup t k := by
  unfold aset
  by_cases hh : ahas t k1 = true
  · rw [if_pos hh]
    exact alookup_map_update_ne t k1 v h
  · rw [if_neg hh]
    cases hc : alookup t k with
    | some v0 => rw [alookup_append_of_some _ hc]
    | none =>
        rw [alookup_append_of_none _ hc]
        simp [alookup, h]

theorem alookup_aset_self {α : Type} (t : List (String × α)) (k : String)
    (v : α) : alookup (aset t k v) k = some v := by
  unfold aset
  by_cases hh : ahas t k = true
  · rw [if_pos hh]
    exact alookup_map_update_self t k v hh
  · rw [if_neg hh]
    rw [Bool.not_eq_true] at hh
    unfold ahas at hh
    cases hc : alookup t k with
    | some v0 => rw [hc] at hh; simp at hh
    | none =>
        rw [alookup_append_of_none _ hc]
        simp [alookup]

theorem alookup_objAssign_ne {α : Type} (src : List (String × α)) :
    ∀ (t : List (String × α)) (k : String), (∀ e ∈ src, e.1 ≠ k) →
    alookup (objAssign t src) k = alookup t k := by
  induction src with
  | nil => intro t k _; rfl
  | cons hd tl ih =>
      intro t k hsrc
      simp only [objAssign, List.foldl_cons] at ih ⊢
      rw [ih (aset t hd.1 hd.2) k (fun e he => hsrc e (List.mem_cons_of_mem _ he))]
      exact alookup_aset_ne t hd.2 (hsrc hd (List.mem_cons_self _ _))

theorem objAssign_fresh {α : Type} (src : List (String × α)) :
    ∀ t : List (String × α), (∀ e ∈ src, ahas t e.1 = false) →
    (src.map Prod.fst).Nodup → objAssign t src = t ++ src := by
  induction src with
  | nil => intro t _ _; simp [objAssign]
  | cons hd tl ih =>
      intro t hfresh hnodup
      simp only [objAssign, List.foldl_cons] at ih ⊢
      have h1 : ahas t hd.1 = false := hfresh hd (List.mem_cons_self _ _)
      rw [aset_of_not_has hd.2 h1]
      rw [List.map_cons, List.nodup_cons] at hnodup
      have h2 : ∀ e ∈ tl, ahas (t ++ [(hd.1, hd.2)]) e.1 = false := by
        intro e he
        rw [ahas_append]
        have hne : hd.1 ≠ e.1 := by
          intro hc
          exact hnodup.1 (by rw [hc]; exact List.mem_map_of_mem Prod.fst he)
        rw [hfresh e (List.mem_cons_of_mem _ he), ahas_singleton_ne _ _ hne]
        rfl
      rw [ih (t ++ [(hd.1, hd.2)]) h2 hnodup.2]
      simp

theorem hget_hset_self (heap : Heap) :
    ∀ (r : Nat) (m : HMap), r < heap.length →
    hget (hset heap r m) r = m := by
  induction heap with
  | nil => intro r m h; simp at h
  | cons hd tl ih =>
      intro r m h
      cases r with
      | zero => rfl
      | succ n => exact ih n m (by simpa using h)

theorem mixin_no_collision (obj : MethodTable) :
    ∀ t : MethodTable, (∀ e ∈ obj, ahas t e.1 = false) →
    (obj.map Prod.fst).Nodup → mixin t obj = (none, t ++ obj) := by
  induction obj with
  | nil => intro t _ _; simp [mixin]
  | cons hd tl ih =>
      intro t hfresh hnodup
      obtain ⟨k0, v0⟩ := hd
      rw [mixin]
      have h1 : ahas t k0 = false := hfresh (k0, v0) (List.mem_cons_self _ _)
      rw [if_neg (by simp [h1]), aset_of_not_has v0 h1]
      rw [List.map_cons, List.nodup_cons] at hnodup
      have h2 : ∀ e ∈ tl, ahas (t ++ [(k0, v0)]) e.1 = false := by
        intro e he
        rw [ahas_append]
        have hne : k0 ≠ e.1 := by
          intro hc
          have h4 := List.mem_map_of_mem Prod.fst he
          exact hnodup.1 (by rw [hc]; exact h4)
        rw [hfresh e (List.mem_cons_of_mem _ he), ahas_singleton_ne _ _ hne]
        rfl
      rw [ih (t ++ [(k0, v0)]) h2 hnodup.2]
      simp

theorem mixin_first_collision (pre : MethodTable) :
    ∀ (t : MethodTable) (k : String) (v : Nat) (rest : MethodTable),
    (∀ e ∈ pre, ahas t e.1 = false) → (pre.map Prod.fst).Nodup →
    ahas (t ++ pre) k = true →
    mixin t (pre ++ (k, v) :: rest) = (some k, t ++ pre) := by
  induction pre with
  | nil =>
      intro t k v rest _ _ hcol
      rw [List.append_nil] at hcol
      rw [List.nil_append, mixin, if_pos (by simp [hcol]), List.append_nil]
  | cons hd tl ih =>
      intro t k v rest hfresh hnodup hcol
      obtain ⟨k0, v0⟩ := hd
      rw [List.cons_append, mixin]
      have h1 : ahas t k0 = false := hfresh (k0, v0) (List.mem_cons_self _ _)
      rw [if_neg (by simp [h1]), aset_of_not_has v0 h1]
      rw [List.map_cons, List.nodup_cons] at hnodup
      have h2 : ∀ e ∈ tl, ahas (t ++ [(k0, v0)]) e.1 = false := by
        intro e he
        rw [ahas_append]
        have hne : k0 ≠ e.1 := by
          intro hc
          have h4 := List.mem_map_of_mem Prod.fst he
          exact hnodup.1 (by rw [hc]; exact h4)
        rw [hfresh e (List.mem_cons_of_mem _ he), ahas_singleton_ne _ _ hne]
        rfl
      have h3 : ahas ((t ++ [(k0, v0)]) ++ tl) k = true := by
        rw [List.append_assoc]
        simpa using hcol
      rw [ih (t ++ [(k0, v0)]) k v rest h2 hnodup.2 h3]
      simp



/-! ### Request pipeline characterization lemmas -/

/-- Lines 123–128: a status outside [200, 204] throws the transport
`WeChatAPIError` naming the URL and the status code; the body, content type
and parser are never consulted (they do not occur in the result), the store
is untouched and exactly one transport call is made. -/
theorem request_transport_reject (env : Env) (url : Url) (retry : Nat)
    (custom : Bool) (st : ApiState)
    (h : ((env.transport st.nCalls).statusCode < 200 ||
          (env.transport st.nCalls).statusCode > 204) = true) :
    request env url retry custom st =
      (Except.error { name := "WeChatAPIError",
                      message := "url: " ++ formatUrl url ++ ", status code: " ++
                        toString (env.transport st.nCalls).statusCode,
                      code := none },
       { st with nCalls := st.nCalls + 1 }) := by
  unfold request
  simp only [h, if_true]

/-- Lines 130–147 and 169: a JSON-or-text body that parses and carries no
truthy `errcode` resolves with the decoded data. -/
theorem request_json_ok (env : Env) (url : Url) (retry : Nat)
    (custom : Bool) (st : ApiState) (d : JVal)
    (hstatus : ((env.transport st.nCalls).statusCode < 200 ||
                (env.transport st.nCalls).statusCode > 204) = false)
    (hct : (strIncludes (env.transport st.nCalls).contentType "application/json" ||
            strIncludes (env.transport st.nCalls).contentType "text/plain") = true)
    (hparse : env.jsonParse (env.sanitize (env.transport st.nCalls).body) = some d)
    (herr : (truthy d && optTruthy (jgetField d "errcode")) = false) :
    request env url retry custom st =
      (Except.ok (ReqResult.jsonData d), { st with nCalls := st.nCalls + 1 }) := by
  unfold request
  simp only [hstatus, Bool.false_eq_true, if_false, hct, if_true, hparse,
    herr]

/-- Lines 137–140: a `text/plain` body that fails to parse resolves with the
raw text. -/
theorem request_textplain_fallback (env : Env) (url : Url) (retry : Nat)
    (custom : Bool) (st : ApiState)
    (hstatus : ((env.transport st.nCalls).statusCode < 200 ||
                (env.transport st.nCalls).statusCode > 204) = false)
    (hct : strIncludes (env.transport st.nCalls).contentType "text/plain" = true)
    (hparse : env.jsonParse (env.sanitize (env.transport st.nCalls).body) = none) :
    request env url retry custom st =
      (Except.ok (ReqResult.rawText (env.transport st.nCalls).body),
       { st with nCalls := st.nCalls + 1 }) := by
  unfold request
  simp only [hstatus, Bool.false_eq_true, if_false, hct, Bool.or_true,
    if_true, hparse]

/-- Lines 142–144: a JSON body that fails to parse throws the decode
`WeChatAPIError` embedding the raw payload, after the single transport
call. -/
theorem request_decode_fail (env : Env) (url : Url) (retry : Nat)
    (custom : Bool) (st : ApiState)
    (hstatus : ((env.transport st.nCalls).statusCode < 200 ||
                (env.transport st.nCalls).statusCode > 204) = false)
    (hjson : strIncludes (env.transport st.nCalls).contentType "application/json" = true)
    (hplain : strIncludes (env.transport st.nCalls).contentType "text/plain" = false)
    (hparse : env.jsonParse (env.sanitize (env.transport st.nCalls).body) = none) :
    request env url retry custom st =
      (Except.error { name := "WeChatAPIError",
                      message := "JSON.parse error. buffer is " ++
                        (env.transport st.nCalls).body,
                      code := none },
       { st with nCalls := st.nCalls + 1 }) := by
  unfold request
  simp only [hstatus, Bool.false_eq_true, if_false, hjson, Bool.true_or,
    if_true, hparse, hplain]

/-- Line 172: any other content type resolves with the raw buffer. -/
theorem request_other_content (env : Env) (url : Url) (retry : Nat)
    (custom : Bool) (st : ApiState)
    (hstatus : ((env.transport st.nCalls).statusCode < 200 ||
                (env.transport st.nCalls).statusCode > 204) = false)
    (hct : (strIncludes (env.transport st.nCalls).contentType "application/json" ||
            strIncludes (env.transport st.nCalls).contentType "text/plain") = false) :
    request env url retry custom st =
      (Except.ok (ReqResult.rawBuffer (env.transport st.nCalls).body),
       { st with nCalls := st.nCalls + 1 }) := by
  unfold request
  simp only [hstatus, Bool.false_eq_true, if_false, hct]

/-- Lines 147–166, recovery branch: a truthy `errcode` that passes the
`(40001 || 42001) && retry > 0 && !tokenFromCustom` test clears the store
(`saveToken(null)`) and then propagates the unconditional failure of
`getAccessToken`; the rewrite/recursion below the acquisition call is dead,
so the transport is hit exactly once. -/
theorem request_errcode_retry_branch (env : Env) (url : Url) (retry : Nat)
    (custom : Bool) (st : ApiState) (d : JVal)
    (hstatus : ((env.transport st.nCalls).statusCode < 200 ||
                (env.transport st.nCalls).statusCode > 204) = false)
    (hct : (strIncludes (env.transport st.nCalls).contentType "application/json" ||
            strIncludes (env.transport st.nCalls).contentType "text/plain") = true)
    (hparse : env.jsonParse (env.sanitize (env.transport st.nCalls).body) = some d)
    (herr : (truthy d && optTruthy (jgetField d "errcode")) = true)
    (hcond : (isCredRejectCode (jgetField d "errcode") && decide (0 < retry) &&
              !custom) = true) :
    request env url retry custom st =
      (Except.error superCantSetError,
       { store := none, nCalls := st.nCalls + 1 }) := by
  cases retry with
  | zero => simp at hcond
  | succ n =>
      rw [Bool.and_assoc, Bool.and_comm (decide (0 < Nat.succ n)),
        ← Bool.and_assoc] at hcond
      have hc2 : (isCredRejectCode (jgetField d "errcode") && !custom) = true := by
        simpa using hcond
      unfold request
      simp only [hstatus, Bool.false_eq_true, if_false, hct, if_true, hparse,
        herr, hc2, getAccessToken]

/-- Lines 147–166, surface branch: a truthy `errcode` that fails the retry
test throws the `APIError{code, message}` right away, after the single
transport call, leaving the store alone. -/
theorem request_errcode_throw (env : Env) (url : Url) (retry : Nat)
    (custom : Bool) (st : ApiState) (d : JVal)
    (hstatus : ((env.transport st.nCalls).statusCode < 200 ||
                (env.transport st.nCalls).statusCode > 204) = false)
    (hct : (strIncludes (env.transport st.nCalls).contentType "application/json" ||
            strIncludes (env.transport st.nCalls).contentType "text/plain") = true)
    (hparse : env.jsonParse (env.sanitize (env.transport st.nCalls).body) = some d)
    (herr : (truthy d && optTruthy (jgetField d "errcode")) = true)
    (hcond : (isCredRejectCode (jgetField d "errcode") && decide (0 < retry) &&
              !custom) = false) :
    request env url retry custom st =
      (Except.error { name := "WeChatAPIError",
                      message := jsToString (jgetField d "errmsg"),
                      code := jgetField d "errcode" },
       { st with nCalls := st.nCalls + 1 }) := by
  cases retry with
  | zero =>
      unfold request
      simp only [hstatus, Bool.false_eq_true, if_false, hct, if_true, hparse,
        herr]
  | succ n =>
      rw [Bool.and_assoc, Bool.and_comm (decide (0 < Nat.succ n)),
        ← Bool.and_assoc] at hcond
      have hc2 : (isCredRejectCode (jgetField d "errcode") && !custom) = false := by
        simpa using hcond
      unfold request
      simp only [hstatus, Bool.false_eq_true, if_false, hct, if_true, hparse,
        herr, hc2]

/-- The rewrite never touches the path. -/
theorem rewriteAccessToken_pathname (u : Url) (tok : String) :
    (rewriteAccessToken u tok).pathname = u.pathname := by
  unfold rewriteAccessToken
  cases h : alookup u.query "access_token" with
  | none => rfl
  | some v =>
      dsimp only
      by_cases hv : (v == "") = true
      · rw [if_pos hv]
      · rw [if_neg hv]

/-- The rewrite leaves every query parameter other than `access_token`
untouched. -/
theorem rewriteAccessToken_other_params (u : Url) (tok k : String)
    (hk : k ≠ "access_token") :
    alookup (rewriteAccessToken u tok).query k = alookup u.query k := by
  unfold rewriteAccessToken
  cases h : alookup u.query "access_token" with
  | none => rfl
  | some v =>
      dsimp only
      by_cases hv : (v == "") = true
      · rw [if_pos hv]
      · rw [if_neg hv]
        exact alookup_aset_ne u.query tok (Ne.symm hk)

/-- When a truthy `access_token` parameter is present, the rewrite sets it
to the new token value. -/
theorem rewriteAccessToken_sets_token (u : Url) (tok v : String)
    (hv : alookup u.query "access_token" = some v)
    (hne : (v == "") = false) :
    alookup (rewriteAccessToken u tok).query "access_token" = some tok := by
  unfold rewriteAccessToken
  rw [hv]
  dsimp only
  rw [if_neg (by simp [hne])]
  exact alookup_aset_self u.query "access_token" tok

/-- Concrete environment fixture for witnesses and counterexamples: every
transport call yields `resp`, and the parser yields `parsed` (standing for
the JSON decoding of the sanitized body). -/
def fixtureEnv (resp : HttpResp) (parsed : Option JVal) : Env :=
  { transport := fun _ => resp
    jsonParse := fun _ => parsed
    sanitize := fun s => s }

/-! ### Claim theorems -/

/-- C8: for every `AccessToken` and every current time, `isValid` returns
true iff the token string is non-empty and the current time is strictly
before `expireTime`; consequently a credential whose `expireTime` is in the
past, or exactly equal to the current instant, is never reported valid,
even with a non-empty token. -/
theorem claim_c8_isValid_iff (t : AccessToken) (now : Int) :
    (t.isValid now = true ↔ (t.accessToken ≠ "" ∧ now < t.expireTime)) ∧
    (t.expireTime ≤ now → t.isValid now = false) := by
  constructor
  · unfold AccessToken.isValid
    simp
  · intro h
    unfold AccessToken.isValid
    have hd : decide (now < t.expireTime) = false := by
      simp only [decide_eq_false_iff_not]
      omega
    rw [hd, Bool.and_false]

/-- Witness for C8 at a concrete credential: expiry exactly now is invalid,
one instant earlier it is valid. -/
theorem claim_c8_isValid_iff_witness :
    (AccessToken.mk "tok" 5).isValid 5 = false ∧
    (AccessToken.mk "tok" 5).isValid 4 = true := by
  constructor
  · exact (claim_c8_isValid_iff (AccessToken.mk "tok" 5) 5).2 (by decide)
  · exact (claim_c8_isValid_iff (AccessToken.mk "tok" 5) 4).1.mpr
      (by constructor <;> decide)

/-- C5: in externally-supplied mode (`tokenFromCustom` set), a missing or
invalid stored credential makes `ensureAccessToken` fail fast with the
`WeChatAPIError` carrying the well-known rejection code 40001; the function
consults only the stored value (its signature has no transport environment),
so no network acquisition can occur on this path. -/
theorem claim_c5_custom_mode_fails_fast (store : Option AccessToken)
    (now : Int) (h : storedTokenValid store now = false) :
    ensureAccessToken store true now = Except.error accessTokenError ∧
    accessTokenError.name = "WeChatAPIError" ∧
    accessTokenError.code = some (JVal.jnum 40001) := by
  refine ⟨?_, rfl, rfl⟩
  cases store with
  | none => rfl
  | some tk =>
      have h2 : tk.isValid now = false := h
      simp [ensureAccessToken, h2]

/-- Witness for C5: empty store, externally-supplied mode. -/
theorem claim_c5_custom_mode_fails_fast_witness :
    ensureAccessToken none true 0 = Except.error accessTokenError ∧
    accessTokenError.name = "WeChatAPIError" ∧
    accessTokenError.code = some (JVal.jnum 40001) :=
  claim_c5_custom_mode_fails_fast none 0 rfl

/-- C4 counterexample: in self-managed mode (`tokenFromCustom` unset) with
no stored credential, `ensureAccessToken` does not call the Token Acquirer
and does not return a fresh credential — it throws the plain Error reading
"can\x27t set access token" (line 233 runs instead of any acquisition). -/
theorem claim_c4_counterexample :
    ensureAccessToken none false 0 = Except.error cantSetError ∧
    cantSetError.name = "Error" := ⟨rfl, rfl⟩

/-- C4 (amended): in self-managed mode, when the stored credential is
missing or invalid, `ensureAccessToken` raises the plain Error reading
"can\x27t set access token"; it never calls `getAccessToken` (no acquisition
takes place — the fall-through at line 233 throws first). -/
theorem claim_c4_self_managed_throws (store : Option AccessToken) (now : Int)
    (h : storedTokenValid store now = false) :
    ensureAccessToken store false now = Except.error cantSetError := by
  cases store with
  | none => rfl
  | some tk =>
      have h2 : tk.isValid now = false := h
      simp [ensureAccessToken, h2]

/-- Witness for C4 (amended): an expired stored credential in self-managed
mode. -/
theorem claim_c4_self_managed_throws_witness :
    ensureAccessToken (some (AccessToken.mk "T1" 100)) false 100 =
      Except.error cantSetError :=
  claim_c4_self_managed_throws (some (AccessToken.mk "T1" 100)) 100
    (by decide)

/-- C3 counterexample: even at a state where an authorization response
access_token "T1", expires_in 7200 at time 0 would be available,
`getAccessToken` does not return the skew-adjusted credential
(expireTime (7200 − 10) · 1000 = 7190000): it throws before any logic
runs. -/
theorem claim_c3_counterexample :
    (getAccessToken { store := none, nCalls := 0 }).1 ≠
      Except.ok (AccessToken.mk "T1" 7190000) := by
  intro h
  exact Except.noConfusion h

/-- C3 (amended): `getAccessToken` unconditionally throws the Error reading
"super can\x27t set access token" as its first statement; it never builds,
persists, or returns a credential, and the token store is left untouched —
the credential-building code with the skew-adjusted expiry below the throw
is unreachable. -/
theorem claim_c3_acquirer_always_throws (st : ApiState) :
    getAccessToken st = (Except.error superCantSetError, st) ∧
    superCantSetError.name = "Error" := ⟨rfl, rfl⟩

/-- C2 counterexample: `mixin` is not all-or-nothing.  With method "foo"
already installed, mixing in the batch [bar, foo] throws the duplicate
error naming "foo", yet "bar" from that same batch has been installed: the
method table after the failed call differs from the table before it. -/
theorem claim_c2_counterexample :
    (mixin [("foo", 0)] [("bar", 1), ("foo", 2)]).1 = some "foo" ∧
    (mixin [("foo", 0)] [("bar", 1), ("foo", 2)]).2 ≠ [("foo", 0)] := by
  decide

/-- C2 (amended): `mixin` checks and installs entry by entry, in key order.
A batch with no name colliding with the table (and internally duplicate-free)
installs completely; a batch whose first collision is `k` throws the
duplicate-method error naming `k`, with every entry preceding `k` already
installed and `k` and everything after it not installed.  The original
binding of the colliding name is left in place, but registration is not
atomic. -/
theorem claim_c2_mixin_sequential (t pre rest : MethodTable) (k : String)
    (v : Nat)
    (hfresh : ∀ e ∈ pre, ahas t e.1 = false)
    (hnodup : (pre.map Prod.fst).Nodup)
    (hcol : ahas (t ++ pre) k = true) :
    mixin t (pre ++ (k, v) :: rest) = (some k, t ++ pre) ∧
    (∀ obj : MethodTable, (∀ e ∈ obj, ahas t e.1 = false) →
      (obj.map Prod.fst).Nodup → mixin t obj = (none, t ++ obj)) :=
  ⟨mixin_first_collision pre t k v rest hfresh hnodup hcol,
   fun obj h1 h2 => mixin_no_collision obj t h1 h2⟩

/-- Witness for C2 (amended): a concrete collision mid-batch and a concrete
collision-free batch. -/
theorem claim_c2_mixin_sequential_witness :
    mixin [("foo", 0)] [("bar", 1), ("foo", 2), ("baz", 3)] =
      (some "foo", [("foo", 0), ("bar", 1)]) ∧
    mixin [("foo", 0)] [("a", 1), ("b", 2)] =
      (none, [("foo", 0), ("a", 1), ("b", 2)]) := by
  have h := claim_c2_mixin_sequential [("foo", 0)] [("bar", 1)] [("baz", 3)]
    "foo" 2 (by decide) (by decide) (by decide)
  exact ⟨h.1, h.2 [("a", 1), ("b", 2)] (by decide) (by decide)⟩

/-- C9: for every HTTP response whose status code lies outside [200, 204],
`request` raises the `WeChatAPIError` naming the URL and the status code.
The result is independent of the body, the content type and the parser
(none of them occurs in it, and the theorem holds for every environment),
exactly one transport call is made (no retry), and the store is
unchanged. -/
theorem claim_c9_transport_error (env : Env) (url : Url) (retry : Nat)
    (custom : Bool) (st : ApiState)
    (h : ((env.transport st.nCalls).statusCode < 200 ||
          (env.transport st.nCalls).statusCode > 204) = true) :
    request env url retry custom st =
      (Except.error { name := "WeChatAPIError",
                      message := "url: " ++ formatUrl url ++ ", status code: " ++
                        toString (env.transport st.nCalls).statusCode,
                      code := none },
       { st with nCalls := st.nCalls + 1 }) :=
  request_transport_reject env url retry custom st h

/-- Witness for C9: a 500 response with a decodable JSON body is rejected on
status alone, body untouched, single transport call, store unchanged. -/
theorem claim_c9_transport_error_witness :
    request
      (fixtureEnv { statusCode := 500, contentType := "application/json",
                    body := "ignored" }
        (some (JVal.jobj [("errcode", JVal.jnum 40001)])))
      { pathname := "media/get", query := [("access_token", "T")] }
      3 false { store := none, nCalls := 0 } =
      (Except.error { name := "WeChatAPIError",
                      message := "url: media/get?access_token=T, status code: 500",
                      code := none },
       { store := none, nCalls := 1 }) :=
  claim_c9_transport_error
    (fixtureEnv { statusCode := 500, contentType := "application/json",
                  body := "ignored" }
      (some (JVal.jobj [("errcode", JVal.jnum 40001)])))
    { pathname := "media/get", query := [("access_token", "T")] }
    3 false { store := none, nCalls := 0 } rfl

/-- C7: the content-type dispatch of `request` on an in-range status.  A
body whose content type includes application/json or text/plain is decoded
as JSON after control-character sanitization (`jsonParse ∘ sanitize`); on
decode failure a text/plain body is returned as raw text while a JSON body
raises the decode error embedding the raw payload (after the one transport
call — never retried); any other content type returns the raw buffer
unchanged. -/
theorem claim_c7_content_dispatch (env : Env) (url : Url) (retry : Nat)
    (custom : Bool) (st : ApiState)
    (hstatus : ((env.transport st.nCalls).statusCode < 200 ||
                (env.transport st.nCalls).statusCode > 204) = false) :
    (∀ d : JVal,
      (strIncludes (env.transport st.nCalls).contentType "application/json" ||
       strIncludes (env.transport st.nCalls).contentType "text/plain") = true →
      env.jsonParse (env.sanitize (env.transport st.nCalls).body) = some d →
      (truthy d && optTruthy (jgetField d "errcode")) = false →
      request env url retry custom st =
        (Except.ok (ReqResult.jsonData d),
         { st with nCalls := st.nCalls + 1 })) ∧
    (strIncludes (env.transport st.nCalls).contentType "text/plain" = true →
     env.jsonParse (env.sanitize (env.transport st.nCalls).body) = none →
     request env url retry custom st =
       (Except.ok (ReqResult.rawText (env.transport st.nCalls).body),
        { st with nCalls := st.nCalls + 1 })) ∧
    (strIncludes (env.transport st.nCalls).contentType "application/json" = true →
     strIncludes (env.transport st.nCalls).contentType "text/plain" = false →
     env.jsonParse (env.sanitize (env.transport st.nCalls).body) = none →
     request env url retry custom st =
       (Except.error { name := "WeChatAPIError",
                       message := "JSON.parse error. buffer is " ++
                         (env.transport st.nCalls).body,
                       code := none },
        { st with nCalls := st.nCalls + 1 })) ∧
    ((strIncludes (env.transport st.nCalls).contentType "application/json" ||
      strIncludes (env.transport st.nCalls).contentType "text/plain") = false →
     request env url retry custom st =
       (Except.ok (ReqResult.rawBuffer (env.transport st.nCalls).body),
        { st with nCalls := st.nCalls + 1 })) :=
  ⟨fun d hct hp he => request_json_ok env url retry custom st d hstatus hct hp he,
   fun hct hp => request_textplain_fallback env url retry custom st hstatus hct hp,
   fun hj hpl hp => request_decode_fail env url retry custom st hstatus hj hpl hp,
   fun hct => request_other_content env url retry custom st hstatus hct⟩

/-- Witness for C7: the four dispatch outcomes at concrete responses. -/
theorem claim_c7_content_dispatch_witness :
    request
      (fixtureEnv { statusCode := 200, contentType := "application/json",
                    body := "ok" } (some (JVal.jobj [("media_id", JVal.jstr "M")])))
      { pathname := "p", query := [] } 3 false { store := none, nCalls := 0 } =
      (Except.ok (ReqResult.jsonData (JVal.jobj [("media_id", JVal.jstr "M")])),
       { store := none, nCalls := 1 }) ∧
    request
      (fixtureEnv { statusCode := 200, contentType := "text/plain",
                    body := "plain!" } none)
      { pathname := "p", query := [] } 3 false { store := none, nCalls := 0 } =
      (Except.ok (ReqResult.rawText "plain!"), { store := none, nCalls := 1 }) ∧
    request
      (fixtureEnv { statusCode := 200, contentType := "application/json",
                    body := "broken" } none)
      { pathname := "p", query := [] } 3 false { store := none, nCalls := 0 } =
      (Except.error { name := "WeChatAPIError",
                      message := "JSON.parse error. buffer is broken",
                      code := none },
       { store := none, nCalls := 1 }) ∧
    request
      (fixtureEnv { statusCode := 200, contentType := "image/jpeg",
                    body := "BYTES" } none)
      { pathname := "p", query := [] } 3 false { store := none, nCalls := 0 } =
      (Except.ok (ReqResult.rawBuffer "BYTES"), { store := none, nCalls := 1 }) := by
  refine ⟨?_, ?_, ?_, ?_⟩
  · exact (claim_c7_content_dispatch
      (fixtureEnv { statusCode := 200, contentType := "application/json",
                    body := "ok" } (some (JVal.jobj [("media_id", JVal.jstr "M")])))
      { pathname := "p", query := [] } 3 false { store := none, nCalls := 0 }
      rfl).1 (JVal.jobj [("media_id", JVal.jstr "M")]) rfl rfl rfl
  · exact (claim_c7_content_dispatch
      (fixtureEnv { statusCode := 200, contentType := "text/plain",
                    body := "plain!" } none)
      { pathname := "p", query := [] } 3 false { store := none, nCalls := 0 }
      rfl).2.1 rfl rfl
  · exact (claim_c7_content_dispatch
      (fixtureEnv { statusCode := 200, contentType := "application/json",
                    body := "broken" } none)
      { pathname := "p", query := [] } 3 false { store := none, nCalls := 0 }
      rfl).2.2.1 rfl rfl rfl
  · exact (claim_c7_content_dispatch
      (fixtureEnv { statusCode := 200, contentType := "image/jpeg",
                    body := "BYTES" } none)
      { pathname := "p", query := [] } 3 false { store := none, nCalls := 0 }
      rfl).2.2.2 rfl

/-- C1 counterexample: a decoded body with errcode 40001, a retry budget of
3, and self-managed mode.  The claim predicts a retry (re-acquisition and a
recursive call, hence a second transport call).  Instead the call clears the
store, fails inside `getAccessToken`, and returns its unconditional Error
(code-less, not the APIError) after exactly one transport call: no retry
ever happens. -/
theorem claim_c1_counterexample :
    request
      (fixtureEnv { statusCode := 200, contentType := "application/json",
                    body := "e" }
        (some (JVal.jobj [("errcode", JVal.jnum 40001),
                          ("errmsg", JVal.jstr "invalid credential")])))
      { pathname := "p", query := [("access_token", "T1")] } 3 false
      { store := some (AccessToken.mk "T1" 99), nCalls := 0 } =
      (Except.error superCantSetError, { store := none, nCalls := 1 }) ∧
    superCantSetError.code = none ∧
    superCantSetError.name = "Error" := ⟨rfl, rfl, rfl⟩

/-- C1 (amended): for every decoded JSON body carrying a truthy errcode:
when the code is 40001 or 42001 AND the retry budget is positive AND the
client is not in externally-supplied mode, `request` invalidates the cached
credential (store becomes empty) and then surfaces the unconditional
failure of `getAccessToken` — the recursion with `retry - 1` is dead code,
so exactly one transport call is made; for any other errcode, or an
exhausted budget, or externally-supplied mode, the APIError{code, message}
is raised immediately, also after exactly one transport call.  In both
cases zero retries occur, trivially within the budget. -/
theorem claim_c1_errcode_dispatch (env : Env) (url : Url) (retry : Nat)
    (custom : Bool) (st : ApiState) (d : JVal)
    (hstatus : ((env.transport st.nCalls).statusCode < 200 ||
                (env.transport st.nCalls).statusCode > 204) = false)
    (hct : (strIncludes (env.transport st.nCalls).contentType "application/json" ||
            strIncludes (env.transport st.nCalls).contentType "text/plain") = true)
    (hparse : env.jsonParse (env.sanitize (env.transport st.nCalls).body) = some d)
    (herr : (truthy d && optTruthy (jgetField d "errcode")) = true) :
    ((isCredRejectCode (jgetField d "errcode") && decide (0 < retry) &&
      !custom) = true →
     request env url retry custom st =
       (Except.error superCantSetError,
        { store := none, nCalls := st.nCalls + 1 })) ∧
    ((isCredRejectCode (jgetField d "errcode") && decide (0 < retry) &&
      !custom) = false →
     request env url retry custom st =
       (Except.error { name := "WeChatAPIError",
                       message := jsToString (jgetField d "errmsg"),
                       code := jgetField d "errcode" },
        { st with nCalls := st.nCalls + 1 })) :=
  ⟨fun hc => request_errcode_retry_branch env url retry custom st d hstatus
     hct hparse herr hc,
   fun hc => request_errcode_throw env url retry custom st d hstatus hct
     hparse herr hc⟩

/-- Witness for C1 (amended): errcode 42001 with budget triggers the
invalidate-then-fail branch; errcode 41001 with the same budget surfaces
the APIError immediately. -/
theorem claim_c1_errcode_dispatch_witness :
    request
      (fixtureEnv { statusCode := 200, contentType := "application/json",
                    body := "e" }
        (some (JVal.jobj [("errcode", JVal.jnum 42001),
                          ("errmsg", JVal.jstr "expired")])))
      { pathname := "p", query := [("access_token", "OLD")] } 2 false
      { store := some (AccessToken.mk "OLD" 5), nCalls := 0 } =
      (Except.error superCantSetError, { store := none, nCalls := 1 }) ∧
    request
      (fixtureEnv { statusCode := 200, contentType := "application/json",
                    body := "e" }
        (some (JVal.jobj [("errcode", JVal.jnum 41001),
                          ("errmsg", JVal.jstr "other error")])))
      { pathname := "p", query := [("access_token", "OLD")] } 3 false
      { store := none, nCalls := 0 } =
      (Except.error { name := "WeChatAPIError", message := "other error",
                      code := some (JVal.jnum 41001) },
       { store := none, nCalls := 1 }) := by
  constructor
  · exact (claim_c1_errcode_dispatch
      (fixtureEnv { statusCode := 200, contentType := "application/json",
                    body := "e" }
        (some (JVal.jobj [("errcode", JVal.jnum 42001),
                          ("errmsg", JVal.jstr "expired")])))
      { pathname := "p", query := [("access_token", "OLD")] } 2 false
      { store := some (AccessToken.mk "OLD" 5), nCalls := 0 }
      (JVal.jobj [("errcode", JVal.jnum 42001),
                  ("errmsg", JVal.jstr "expired")])
      rfl rfl rfl rfl).1 rfl
  · exact (claim_c1_errcode_dispatch
      (fixtureEnv { statusCode := 200, contentType := "application/json",
                    body := "e" }
        (some (JVal.jobj [("errcode", JVal.jnum 41001),
                          ("errmsg", JVal.jstr "other error")])))
      { pathname := "p", query := [("access_token", "OLD")] } 3 false
      { store := none, nCalls := 0 }
      (JVal.jobj [("errcode", JVal.jnum 41001),
                  ("errmsg", JVal.jstr "other error")])
      rfl rfl rfl rfl).2 rfl

/-- C6 counterexample: a triggered recovery (errcode 42001, budget 1,
self-managed, with a cached credential).  The claim predicts that after
re-acquisition the cache holds a fresh, different credential and that a
retry is issued with the rewritten URL.  Instead the cache is left empty
(no new credential) and no retried call happens: the transport was hit
exactly once and the call failed with the acquisition error. -/
theorem claim_c6_counterexample :
    request
      (fixtureEnv { statusCode := 200, contentType := "application/json",
                    body := "e" }
        (some (JVal.jobj [("errcode", JVal.jnum 42001),
                          ("errmsg", JVal.jstr "expired")])))
      { pathname := "p", query := [("access_token", "OLD"), ("media_id", "M1")] }
      1 false { store := some (AccessToken.mk "OLD" 50), nCalls := 0 } =
      (Except.error superCantSetError, { store := none, nCalls := 1 }) := rfl

/-- C6 (amended): the URL-rewriting step of the recovery branch, taken in
isolation, rewrites only the `access_token` query parameter to the new
token, leaving the path and every other query parameter untouched; but in
the shipped pipeline that rewrite is unreachable: whenever the recovery
branch is triggered, the store is cleared and the call fails inside
`getAccessToken` before any rewrite or retry, so the cached credential
after the branch is empty rather than a differing fresh one. -/
theorem claim_c6_rewrite_frame (u : Url) (tok : String) :
    ((rewriteAccessToken u tok).pathname = u.pathname) ∧
    (∀ k, k ≠ "access_token" →
      alookup (rewriteAccessToken u tok).query k = alookup u.query k) ∧
    (∀ v, alookup u.query "access_token" = some v → (v == "") = false →
      alookup (rewriteAccessToken u tok).query "access_token" = some tok) ∧
    (∀ (env : Env) (retry : Nat) (custom : Bool) (st : ApiState) (d : JVal),
      ((env.transport st.nCalls).statusCode < 200 ||
       (env.transport st.nCalls).statusCode > 204) = false →
      (strIncludes (env.transport st.nCalls).contentType "application/json" ||
       strIncludes (env.transport st.nCalls).contentType "text/plain") = true →
      env.jsonParse (env.sanitize (env.transport st.nCalls).body) = some d →
      (truthy d && optTruthy (jgetField d "errcode")) = true →
      (isCredRejectCode (jgetField d "errcode") && decide (0 < retry) &&
       !custom) = true →
      request env u retry custom st =
        (Except.error superCantSetError,
         { store := none, nCalls := st.nCalls + 1 })) :=
  ⟨rewriteAccessToken_pathname u tok,
   fun k hk => rewriteAccessToken_other_params u tok k hk,
   fun v hv hne => rewriteAccessToken_sets_token u tok v hv hne,
   fun env retry custom st d h1 h2 h3 h4 h5 =>
     request_errcode_retry_branch env u retry custom st d h1 h2 h3 h4 h5⟩

/-- Witness for C6 (amended): the rewrite on a concrete URL keeps the path
and the `media_id` parameter, sets `access_token` to the new token; and a
concrete triggered recovery clears the store and fails without retrying. -/
theorem claim_c6_rewrite_frame_witness :
    (rewriteAccessToken
      { pathname := "p", query := [("access_token", "OLD"), ("media_id", "M1")] }
      "NEW").pathname = "p" ∧
    alookup (rewriteAccessToken
      { pathname := "p", query := [("access_token", "OLD"), ("media_id", "M1")] }
      "NEW").query "media_id" = some "M1" ∧
    alookup (rewriteAccessToken
      { pathname := "p", query := [("access_token", "OLD"), ("media_id", "M1")] }
      "NEW").query "access_token" = some "NEW" ∧
    request
      (fixtureEnv { statusCode := 200, contentType := "application/json",
                    body := "e" }
        (some (JVal.jobj [("errcode", JVal.jnum 40001),
                          ("errmsg", JVal.jstr "invalid")])))
      { pathname := "p", query := [("access_token", "OLD"), ("media_id", "M1")] }
      2 false { store := some (AccessToken.mk "OLD" 7), nCalls := 0 } =
      (Except.error superCantSetError, { store := none, nCalls := 1 }) := by
  have h := claim_c6_rewrite_frame
    { pathname := "p", query := [("access_token", "OLD"), ("media_id", "M1")] }
    "NEW"
  refine ⟨h.1, h.2.1 "media_id" (by decide), h.2.2.1 "OLD" rfl rfl, ?_⟩
  exact h.2.2.2
    (fixtureEnv { statusCode := 200, contentType := "application/json",
                  body := "e" }
      (some (JVal.jobj [("errcode", JVal.jnum 40001),
                        ("errmsg", JVal.jstr "invalid")])))
    2 false { store := some (AccessToken.mk "OLD" 7), nCalls := 0 }
    (JVal.jobj [("errcode", JVal.jnum 40001), ("errmsg", JVal.jstr "invalid")])
    rfl rfl rfl rfl rfl

/-- C10: when `this.defaults` holds a `headers` object and a call to
`request` supplies per-call headers, the merge writes the per-call entries
into that shared headers object itself: `Object.assign(options,
this.defaults)` copies the reference, `options.headers || {}` keeps it, and
`Object.assign(options.headers, opts.headers)` mutates the referenced
object.  Hence the merged options alias the defaults headers object, the
per-call entries persist behind the defaults reference, and a subsequent
`request` on the same client (second merge, no per-call options) observes
them as defaults. -/
theorem claim_c10_headers_alias (heap : Heap) (defaults : OptObj)
    (opts : Opts) (r : Nat) (h : HMap)
    (href : alookup defaults "headers" = some (OptVal.href r))
    (hnodup : (defaults.map Prod.fst).Nodup)
    (hplain : ∀ e ∈ opts.plain, e.1 ≠ "headers")
    (hh : opts.headers = some h)
    (hr : r < heap.length) :
    hget (mergeOptions heap defaults opts).1 r = hmapAssign (hget heap r) h ∧
    alookup (mergeOptions heap defaults opts).2 "headers" =
      some (OptVal.href r) ∧
    alookup (mergeOptions (mergeOptions heap defaults opts).1 defaults
      { plain := [], headers := none }).2 "headers" = some (OptVal.href r) ∧
    hget (mergeOptions (mergeOptions heap defaults opts).1 defaults
      { plain := [], headers := none }).1 r = hmapAssign (hget heap r) h := by
  obtain ⟨plain, hdrs⟩ := opts
  dsimp only at hplain hh
  subst hh
  have hd0 : objAssign ([] : OptObj) defaults = defaults := by
    have h5 := objAssign_fresh defaults ([] : OptObj) (fun e _ => rfl) hnodup
    simpa using h5
  have h1 : alookup (objAssign (objAssign ([] : OptObj) defaults) plain)
      "headers" = some (OptVal.href r) := by
    rw [alookup_objAssign_ne plain (objAssign ([] : OptObj) defaults)
      "headers" hplain, hd0, href]
  have hmerge : mergeOptions heap defaults ⟨plain, some h⟩ =
      (hset heap r (hmapAssign (hget heap r) h),
       objAssign (objAssign ([] : OptObj) defaults) plain) := by
    unfold mergeOptions
    dsimp only
    rw [h1]
  refine ⟨?_, ?_, ?_, ?_⟩
  · rw [hmerge]
    exact hget_hset_self heap r (hmapAssign (hget heap r) h) hr
  · rw [hmerge]
    exact h1
  · rw [hmerge]
    unfold mergeOptions
    dsimp only
    rw [hd0]
    exact href
  · rw [hmerge]
    unfold mergeOptions
    dsimp only
    exact hget_hset_self heap r (hmapAssign (hget heap r) h) hr

/-- Witness for C10: a concrete client whose defaults reference headers
object 0 containing a: 1; a call with per-call header x: y mutates that
object, and a second call with no options still sees x: y through the
defaults. -/
theorem claim_c10_headers_alias_witness :
    hget (mergeOptions [[("a", "1")]]
      [("timeout", OptVal.prim "5000"), ("headers", OptVal.href 0)]
      { plain := [("method", OptVal.prim "POST")],
        headers := some [("x", "y")] }).1 0 = [("a", "1"), ("x", "y")] ∧
    alookup (mergeOptions [[("a", "1")]]
      [("timeout", OptVal.prim "5000"), ("headers", OptVal.href 0)]
      { plain := [("method", OptVal.prim "POST")],
        headers := some [("x", "y")] }).2 "headers" = some (OptVal.href 0) ∧
    alookup (mergeOptions (mergeOptions [[("a", "1")]]
      [("timeout", OptVal.prim "5000"), ("headers", OptVal.href 0)]
      { plain := [("method", OptVal.prim "POST")],
        headers := some [("x", "y")] }).1
      [("timeout", OptVal.prim "5000"), ("headers", OptVal.href 0)]
      { plain := [], headers := none }).2 "headers" = some (OptVal.href 0) ∧
    hget (mergeOptions (mergeOptions [[("a", "1")]]
      [("timeout", OptVal.prim "5000"), ("headers", OptVal.href 0)]
      { plain := [("method", OptVal.prim "POST")],
        headers := some [("x", "y")] }).1
      [("timeout", OptVal.prim "5000"), ("headers", OptVal.href 0)]
      { plain := [], headers := none }).1 0 = [("a", "1"), ("x", "y")] :=
  claim_c10_headers_alias [[("a", "1")]]
    [("timeout", OptVal.prim "5000"), ("headers", OptVal.href 0)]
    { plain := [("method", OptVal.prim "POST")], headers := some [("x", "y")] }
    0 [("x", "y")] rfl (by decide) (by decide) rfl (by decide)
